import Mathlib

/-!
# Verification of the rice-notes backend core

Shallow embedding of the Go backend of `rice-notes` (auth service, note
service, repository and HTTP handlers) and proofs of the specification
claims about it.

Strings are modelled as Lean `String`; the Go byte-level operations
`strings.HasSuffix`, `strings.Contains`, `strings.ToLower`, `len` and
`path/filepath.Ext` are embedded below over the character list of the
string (`Char.toLower` is ASCII case-folding, which agrees with Go's
`strings.ToLower` on the ASCII inputs that occur in all claims).
-/

namespace RiceNotes

/-- Go `strings.HasSuffix s suf`. -/
def goHasSuffix (s suf : String) : Bool :=
  suf.data.isSuffixOf s.data

/-- `sub` occurs as a contiguous sublist of the second argument. -/
def containsAux (sub : List Char) : List Char → Bool
  | [] => sub.isEmpty
  | c :: rest => sub.isPrefixOf (c :: rest) || containsAux sub rest

/-- Go `strings.Contains s sub` (substring anywhere in `s`). -/
def goContains (s sub : String) : Bool :=
  containsAux sub.data s.data

/-- Go `strings.ToLower` (ASCII case folding). -/
def goToLower (s : String) : String :=
  ⟨s.data.map Char.toLower⟩

/-- Go `len s` — the byte length of the string. -/
def goLen (s : String) : Nat :=
  s.utf8ByteSize

/-!
## Auth service (`internal/services/auth_service.go`)
-/

/-- Google user information returned by the OAuth provider
(`UserInfo` struct). -/
structure UserInfo where
  email : String
  name : String
  picture : String
  verified : Bool
deriving Repr, DecidableEq

/-- `AuthService.isRiceEmail`: the acceptance predicate of the auth
service, embedded verbatim from the source:

    if email == "" { return false }
    email = strings.ToLower(email)
    return strings.HasSuffix(email, "@rice.edu") || strings.Contains(email, ".rice.edu")
-/
def isRiceEmail (email : String) : Bool :=
  if email = "" then false
  else
    let e := goToLower email
    goHasSuffix e "@rice.edu" || goContains e ".rice.edu"

/-- The suffix of `l` strictly after the last `'@'`, if any. -/
def afterLastAt : List Char → Option (List Char)
  | [] => none
  | c :: rest =>
    match afterLastAt rest with
    | some l => some l
    | none => if c = '@' then some rest else none

/-- The domain part of an email address: everything after the last `'@'`
(empty result when there is no `'@'`). -/
def emailDomain (email : String) : String :=
  match afterLastAt email.data with
  | some l => ⟨l⟩
  | none => ""

/-- Modelled from the spec: "the email's domain must equal or be a
subdomain of the configured institutional domain (case-insensitive
compare)" — the domain of the email, lower-cased, is `rice.edu` or ends
in `.rice.edu`.  This is the spec-side acceptance predicate, to be
compared with the source-side `isRiceEmail`. -/
def specInRiceDomain (email : String) : Bool :=
  match afterLastAt email.data with
  | none => false
  | some d =>
    let dl := goToLower ⟨d⟩
    dl = "rice.edu" || goHasSuffix dl ".rice.edu"

/-- The post-resolution decision logic of
`AuthService.ExchangeCodeForToken` (lines 174–201 of the source): given
the resolved `UserInfo`, decide whether a token is issued (`.ok`) or the
request is rejected with which error message.  The code-exchange and
profile-fetch network steps are resolved by hypothesis ("for every
resolved email"), so only the acceptance logic is embedded:

    if !a.isRiceEmail(userInfo.Email) { return nil, errors.New("only Rice University emails are allowed") }
    if !a.isRiceEmail(userInfo.Email) && !userInfo.Verified { return nil, errors.New("email not verified") }
    ... generate JWT, return AuthResult ...
-/
def exchangeCodeForToken (u : UserInfo) : Except String Unit :=
  if !(isRiceEmail u.email) then
    .error "only Rice University emails are allowed"
  else if !(isRiceEmail u.email) && !u.verified then
    .error "email not verified"
  else
    .ok ()

/-!
## Storage key (`internal/infra/storage/s3_uploader.go`)
-/

/-- `storage.GenerateFileKey`:
`fmt.Sprintf("notes/%s/%s/%s", userEmail, noteID, fileName)`. -/
def GenerateFileKey (userEmail noteID fileName : String) : String :=
  "notes/" ++ userEmail ++ "/" ++ noteID ++ "/" ++ fileName

/-!
## JWT model (`internal/services/auth_service.go`)

A signed token is modelled as its decoded claims together with the
signing algorithm and the MAC key it was signed with; signature
verification is modelled as equality of that key with the service's
secret.  Instants are Unix seconds (`Int`).
-/

/-- Signing algorithms relevant to the service: the HMAC family the
service signs with, and any non-HMAC algorithm (`jwt.SigningMethodHMAC`
type check in `ValidateJWT`). -/
inductive SigAlg where
  | hs256
  | nonHMAC
deriving Repr, DecidableEq

/-- The `JWTClaims` struct: custom claims {email, name, picture} plus
the registered claims set by `generateJWT` (expiry, issued-at, issuer). -/
structure JWTClaims where
  email : String
  name : String
  picture : String
  expiresAt : Int
  issuedAt : Int
  issuer : String
deriving Repr, DecidableEq

/-- A signed token: decoded claims, the algorithm of its header, and the
key it was MACed with. -/
structure SignedToken where
  claims : JWTClaims
  alg : SigAlg
  key : String
deriving Repr, DecidableEq

/-- `AuthService.generateJWT`: expiry exactly 24 hours after `now`,
issued-at `now`, issuer `"rice-notes"`, custom claims copied from the
user info, signed with HS256 under the service secret. -/
def generateJWT (secret : String) (now : Int) (u : UserInfo) : SignedToken :=
  { claims :=
      { email := u.email
        name := u.name
        picture := u.picture
        expiresAt := now + 24 * 3600
        issuedAt := now
        issuer := "rice-notes" }
    alg := .hs256
    key := secret }

/-- The `jwt.ParseWithClaims` step of `ValidateJWT`: rejects a non-HMAC
algorithm (the key-function check), rejects a bad signature, and — in
the library's default validation — rejects a token whose expiry is not
strictly after `now`.  `libLag : Bool` switches the library's own expiry
validation off, modelling a parser whose validity flag lags; the
service's independent expiry check below must catch expiry in that case
too. -/
def parseWithClaims (secret : String) (now : Int) (libLag : Bool)
    (tok : SignedToken) : Except String JWTClaims :=
  if tok.alg ≠ SigAlg.hs256 then
    .error "invalid token: unexpected signing method"
  else if tok.key ≠ secret then
    .error "invalid token: signature is invalid"
  else if !libLag && !(now < tok.claims.expiresAt) then
    .error "invalid token: token is expired"
  else
    .ok tok.claims

/-- `AuthService.ValidateJWT` on a well-formed token: parse (signature,
algorithm and the library's own validation), then the service's
independent real-time expiry comparison

    if time.Now().Unix() > claims.ExpiresAt.Unix() { return nil, errors.New("token expired") }
-/
def validateJWT (secret : String) (now : Int) (libLag : Bool)
    (tok : SignedToken) : Except String JWTClaims :=
  match parseWithClaims secret now libLag tok with
  | .error e => .error e
  | .ok claims =>
    if now > claims.expiresAt then .error "token expired"
    else .ok claims

/-- An error message that reports token expiry: either the service's own
independent check or the parser's expiry validation. -/
def isExpiredError (e : String) : Bool :=
  e = "token expired" || e = "invalid token: token is expired"

/-!
## Note service (`internal/services/note_service.go`)
-/

/-- `MaxFileSize = 10 * 1024 * 1024` (10 MiB). -/
def MaxFileSize : Int := 10 * 1024 * 1024

/-- `AllowedContentType`. -/
def AllowedContentType : String := "application/pdf"

/-- The fields of `multipart.FileHeader` the service reads. -/
structure FileHeader where
  filename : String
  size : Int
deriving Repr, DecidableEq

/-- Scan the reversed character list of a path for Go's `filepath.Ext`:
walking from the end of the path, stop at a path separator; at the first
`'.'` return the reversed extension (the dot and everything after it). -/
def extFromRev : List Char → Option (List Char)
  | [] => none
  | c :: rest =>
    if c = '/' then none
    else if c = '.' then some [c]
    else (extFromRev rest).map (fun l => c :: l)

/-- Go `filepath.Ext path`: the suffix beginning at the final dot in the
final path element; empty when there is no dot. -/
def filepathExt (path : String) : String :=
  match extFromRev path.data.reverse with
  | none => ""
  | some l => ⟨l.reverse⟩

/-- `NoteService.validateCreateNoteRequest`, embedded check for check in
source order; `none` means the request is valid, `some msg` is the
returned error message.  `header = none` models a nil `*FileHeader`. -/
def validateCreateNoteRequest (userEmail title courseID : String)
    (header : Option FileHeader) : Option String :=
  if userEmail = "" then some "user email is required"
  else if title = "" then some "title is required"
  else if goLen title > 255 then some "title must be 255 characters or less"
  else if courseID = "" then some "course ID is required"
  else if goLen courseID > 50 then some "course ID must be 50 characters or less"
  else
    match header with
    | none => some "file is required"
    | some h =>
      if h.size = 0 then some "file cannot be empty"
      else if h.size > MaxFileSize then
        some "file size must be less than 10485760 bytes"
      else if goToLower (filepathExt h.filename) ≠ ".pdf" then
        some "only PDF files are allowed"
      else none

/-- A note row (`models.Note` / the `notes` table). -/
structure Note where
  id : String
  userEmail : String
  title : String
  courseID : String
  fileName : String
  filePath : String
  fileSize : Int
  contentType : String
deriving Repr, DecidableEq

/-- The summary returned by `CreateNote` (`models.NoteResponse`, without
the timestamp, which the database fills in). -/
structure NoteResponse where
  id : String
  title : String
  courseID : String
  fileName : String
  fileSize : Int
  contentType : String
deriving Repr, DecidableEq

/-- One observable call made by the note service to its two backends
(the uploader and the repository). -/
inductive Event where
  | upload (key : String)
  | repoCreate (noteID : String)
  | storageDelete (key : String)
  | repoGet (noteID : String)
  | repoDelete (noteID userEmail : String)
  | repoListByUser (userEmail : String) (limit offset : Int)
  | repoListByCourse (userEmail courseID : String) (limit offset : Int)
deriving Repr, DecidableEq

/-- Injected outcomes of the fallible backend calls: `none` is success,
`some msg` is the error message the backend returns. -/
structure Faults where
  uploadError : Option String
  createError : Option String
  storageDeleteError : Option String
  repoDeleteExecError : Option String
deriving Repr, DecidableEq

/-- All backends succeed. -/
def noFaults : Faults :=
  { uploadError := none, createError := none
    storageDeleteError := none, repoDeleteExecError := none }

/-- `NoteService.CreateNote`: validate, build the storage key with
`GenerateFileKey`, upload, insert the metadata row, and on insert
failure best-effort delete the uploaded object (the delete's own failure
is only logged) and surface the wrapped metadata error.  The generated
`uuid.New()` is the `noteID` argument; the result is paired with the
trace of backend calls in execution order. -/
def createNote (f : Faults) (userEmail title courseID : String)
    (header : Option FileHeader) (noteID : String) :
    Except String NoteResponse × List Event :=
  match validateCreateNoteRequest userEmail title courseID header with
  | some e => (.error e, [])
  | none =>
    match header with
    | none => (.error "file is required", [])
    | some h =>
      let key := GenerateFileKey userEmail noteID h.filename
      match f.uploadError with
      | some e => (.error ("failed to upload file: " ++ e), [.upload key])
      | none =>
        match f.createError with
        | some e =>
          (.error ("failed to save note: " ++ e),
           [.upload key, .repoCreate noteID, .storageDelete key])
        | none =>
          (.ok { id := noteID, title := title, courseID := courseID
                 fileName := h.filename, fileSize := h.size
                 contentType := AllowedContentType },
           [.upload key, .repoCreate noteID])

/-- `PostgresNoteRepository.GetNoteByID`: `SELECT ... WHERE id = $1`
over the rows `db`; `pgx.ErrNoRows` becomes the error
`"note not found: " ++ id`. -/
def repoGetNoteByID (db : List Note) (id : String) : Except String Note :=
  match db.find? (fun n => n.id = id) with
  | some n => .ok n
  | none => .error ("note not found: " ++ id)

/-- `NoteService.GetNoteByID`: fetch by id, propagating the repository
error unchanged; on an owner mismatch return the error
`"note not found"`. -/
def getNoteByID (db : List Note) (noteID userEmail : String) :
    Except String Note :=
  match repoGetNoteByID db noteID with
  | .error e => .error e
  | .ok note =>
    if note.userEmail ≠ userEmail then .error "note not found"
    else .ok note

/-- `PostgresNoteRepository.DeleteNote`: `DELETE ... WHERE id = $1 AND
user_email = $2`; an `Exec` failure is wrapped, zero rows affected is
`"note not found or not owned by user"`. -/
def repoDeleteNote (db : List Note) (f : Faults) (id userEmail : String) :
    Except String Unit :=
  match f.repoDeleteExecError with
  | some e => .error ("failed to delete note: " ++ e)
  | none =>
    if db.any (fun n => n.id = id && n.userEmail = userEmail) then .ok ()
    else .error "note not found or not owned by user"

/-- `NoteService.DeleteNote`: resolve ownership via `GetNoteByID`, then
delete the metadata row, then best-effort delete the object (a storage
delete failure is logged, not surfaced).  Paired with the trace of
backend calls in execution order. -/
def deleteNote (db : List Note) (f : Faults) (noteID userEmail : String) :
    Except String Unit × List Event :=
  match getNoteByID db noteID userEmail with
  | .error e => (.error e, [.repoGet noteID])
  | .ok note =>
    match repoDeleteNote db f noteID userEmail with
    | .error e =>
      (.error ("failed to delete note: " ++ e),
       [.repoGet noteID, .repoDelete noteID userEmail])
    | .ok _ =>
      (.ok (), [.repoGet noteID, .repoDelete noteID userEmail,
                .storageDelete note.filePath])

/-- `NoteService.GetUserNotes`: clamp the pagination parameters and
dispatch to the course-filtered or unfiltered repository query; the
value is the repository call actually issued. -/
def getUserNotes (userEmail courseID : String) (limit offset : Int) : Event :=
  let l := if limit ≤ 0 || limit > 100 then 50 else limit
  let o := if offset < 0 then 0 else offset
  if courseID ≠ "" then .repoListByCourse userEmail courseID l o
  else .repoListByUser userEmail l o

/-- Whether an event is an object-store delete. -/
def Event.isStorageDelete : Event → Bool
  | .storageDelete _ => true
  | _ => false

/-- The limit argument of a repository list call. -/
def Event.limitOf : Event → Int
  | .repoListByUser _ l _ => l
  | .repoListByCourse _ _ l _ => l
  | _ => 0

/-- The offset argument of a repository list call. -/
def Event.offsetOf : Event → Int
  | .repoListByUser _ _ o => o
  | .repoListByCourse _ _ _ o => o
  | _ => 0

/-!
## HTTP create-note handler (`internal/handlers/note_handler.go`)
-/

/-- An HTTP response: status code and body. -/
structure HTTPResponse where
  status : Nat
  body : String
deriving Repr, DecidableEq

/-- The response the create-note handler sends for the service's result
(lines 96–112 of the handler): on error, `http.Error(w, err.Error(),
http.StatusBadRequest)` — the body is the error's text plus the newline
`http.Error` appends; on success, 201 with the JSON summary (the body is
abstracted as a tag here, only the error path is at issue). -/
def handlerCreateNoteResponse (r : Except String NoteResponse) : HTTPResponse :=
  match r with
  | .error e => { status := 400, body := e ++ "\n" }
  | .ok _ => { status := 201, body := "<note summary JSON>" }

/-- The response the get-note handler sends for the service's result
(lines 187–200): any service error becomes a fixed 404 with body
`"Note not found"` plus `http.Error`'s newline — the error value itself
is only logged; success is 200 with the note JSON (abstracted as a
tag). -/
def handlerGetNoteResponse (r : Except String Note) : HTTPResponse :=
  match r with
  | .error _ => { status := 404, body := "Note not found\n" }
  | .ok _ => { status := 200, body := "<note JSON>" }

/-!
## Claim theorems
-/

/-- **C1** (code bug): the spec claims `ExchangeCodeForToken` issues a
token only when the email's domain equals or is a subdomain of
`rice.edu` (case-insensitive), rejecting every other resolved email with
the domain-rejection error, and that `isRiceEmail` holds exactly for
in-domain emails.  The code violates this: `isRiceEmail` tests
`strings.Contains(email, ".rice.edu")`, which matches the substring
anywhere, not only in the domain.  At the failing input
`"attacker.rice.edu@evil.com"` — whose domain is `evil.com` and whose
provider-verified flag is false — `isRiceEmail` accepts, the spec-side
domain predicate rejects, and the exchange issues a token instead of
failing with the domain-rejection error, contradicting the code's own
comment "Check for @rice.edu or @subdomain.rice.edu". -/
theorem c1_domain_policy_failing_input :
    isRiceEmail "attacker.rice.edu@evil.com" = true ∧
    emailDomain "attacker.rice.edu@evil.com" = "evil.com" ∧
    specInRiceDomain "attacker.rice.edu@evil.com" = false ∧
    exchangeCodeForToken
      { email := "attacker.rice.edu@evil.com", name := "Mallory",
        picture := "", verified := false } = .ok () :=
  ⟨by decide, by decide, by decide, rfl⟩

/-- **C2** (counterexample): the claim says wrong-owner access returns
*the same error* as a nonexistent id.  At a concrete database holding
one note owned by `a@rice.edu`, a wrong-owner read returns the error
`"note not found"` while a read of an absent id returns the
repository's `"note not found: n2"` — different error values, so the
claim as stated is false at the service boundary. -/
theorem c2_counterexample :
    (getNoteByID
        [{ id := "n1", userEmail := "a@rice.edu", title := "T",
           courseID := "C", fileName := "f.pdf",
           filePath := "notes/a@rice.edu/n1/f.pdf", fileSize := 5,
           contentType := "application/pdf" }]
        "n1" "b@rice.edu" = .error "note not found") ∧
    (getNoteByID
        [{ id := "n1", userEmail := "a@rice.edu", title := "T",
           courseID := "C", fileName := "f.pdf",
           filePath := "notes/a@rice.edu/n1/f.pdf", fileSize := 5,
           contentType := "application/pdf" }]
        "n2" "b@rice.edu" = .error "note not found: n2") ∧
    ("note not found" : String) ≠ "note not found: n2" :=
  ⟨rfl, rfl, by decide⟩

/-- **C2** (amended): for every note present under a different owner and
every absent id, the wrong-owner read returns the error
`"note not found"` and the absent-id read returns the repository's
`"note not found: " ++ id` — two different service-level error values —
and the HTTP get-note handler maps both to the identical
404 `"Note not found"` response, so absence and ownership mismatch are
indistinguishable to the HTTP client though not as Go error values. -/
theorem c2_amended_indistinguishable (db : List Note)
    (id owner2 id2 : String) (note : Note)
    (hfind : db.find? (fun n => n.id = id) = some note)
    (hown : note.userEmail ≠ owner2)
    (habsent : db.find? (fun n => n.id = id2) = none) :
    getNoteByID db id owner2 = .error "note not found" ∧
    getNoteByID db id2 owner2 = .error ("note not found: " ++ id2) ∧
    handlerGetNoteResponse (getNoteByID db id owner2)
      = handlerGetNoteResponse (getNoteByID db id2 owner2) := by
  have h1 : getNoteByID db id owner2 = .error "note not found" := by
    simp [getNoteByID, repoGetNoteByID, hfind, hown]
  have h2 : getNoteByID db id2 owner2 = .error ("note not found: " ++ id2) := by
    simp [getNoteByID, repoGetNoteByID, habsent]
  exact ⟨h1, h2, by rw [h1, h2]; rfl⟩

/-- **C2** witness: the amended theorem applied at the concrete one-note
database of the counterexample. -/
theorem c2_amended_witness :
    getNoteByID
        [{ id := "n1", userEmail := "a@rice.edu", title := "T",
           courseID := "C", fileName := "f.pdf",
           filePath := "notes/a@rice.edu/n1/f.pdf", fileSize := 5,
           contentType := "application/pdf" }]
        "n1" "b@rice.edu" = .error "note not found" ∧
    getNoteByID
        [{ id := "n1", userEmail := "a@rice.edu", title := "T",
           courseID := "C", fileName := "f.pdf",
           filePath := "notes/a@rice.edu/n1/f.pdf", fileSize := 5,
           contentType := "application/pdf" }]
        "n2" "b@rice.edu" = .error ("note not found: " ++ "n2") ∧
    handlerGetNoteResponse
        (getNoteByID
          [{ id := "n1", userEmail := "a@rice.edu", title := "T",
             courseID := "C", fileName := "f.pdf",
             filePath := "notes/a@rice.edu/n1/f.pdf", fileSize := 5,
             contentType := "application/pdf" }]
          "n1" "b@rice.edu")
      = handlerGetNoteResponse
          (getNoteByID
            [{ id := "n1", userEmail := "a@rice.edu", title := "T",
               courseID := "C", fileName := "f.pdf",
               filePath := "notes/a@rice.edu/n1/f.pdf", fileSize := 5,
               contentType := "application/pdf" }]
            "n2" "b@rice.edu") :=
  c2_amended_indistinguishable _ "n1" "b@rice.edu" "n2"
    { id := "n1", userEmail := "a@rice.edu", title := "T",
      courseID := "C", fileName := "f.pdf",
      filePath := "notes/a@rice.edu/n1/f.pdf", fileSize := 5,
      contentType := "application/pdf" }
    (by decide) (by decide) (by decide)

/-- **C3**: when validation passes, the upload succeeds and the metadata
insert fails with error `e`, `CreateNote` returns the wrapped metadata
error `"failed to save note: " ++ e` — for every outcome of the
compensating delete, so a delete failure never replaces the original
error — and the trace contains exactly one object-store delete, whose
key is exactly the uploaded key `GenerateFileKey userEmail noteID
h.filename`. -/
theorem c3_compensating_delete (f : Faults)
    (userEmail title courseID : String) (h : FileHeader) (noteID e : String)
    (hval : validateCreateNoteRequest userEmail title courseID (some h) = none)
    (hup : f.uploadError = none) (hcr : f.createError = some e) :
    (createNote f userEmail title courseID (some h) noteID).1
      = .error ("failed to save note: " ++ e) ∧
    (createNote f userEmail title courseID (some h) noteID).2.filter
        Event.isStorageDelete
      = [.storageDelete (GenerateFileKey userEmail noteID h.filename)] := by
  simp [createNote, hval, hup, hcr, List.filter, Event.isStorageDelete]

/-- **C3** witness: concrete inputs passing validation, a metadata
failure `"db down"` and a compensating-delete failure `"s3 down"`; the
original error still surfaces and the delete is called once with the
uploaded key. -/
theorem c3_witness :
    (createNote ⟨none, some "db down", some "s3 down", none⟩
        "a@rice.edu" "Calc Notes" "MATH101" (some ⟨"calc.pdf", 2097152⟩)
        "id1").1
      = .error ("failed to save note: " ++ "db down") ∧
    (createNote ⟨none, some "db down", some "s3 down", none⟩
        "a@rice.edu" "Calc Notes" "MATH101" (some ⟨"calc.pdf", 2097152⟩)
        "id1").2.filter Event.isStorageDelete
      = [.storageDelete (GenerateFileKey "a@rice.edu" "id1" "calc.pdf")] :=
  c3_compensating_delete ⟨none, some "db down", some "s3 down", none⟩
    "a@rice.edu" "Calc Notes" "MATH101" ⟨"calc.pdf", 2097152⟩ "id1" "db down"
    (by decide) rfl rfl

/-- **C10**: round-trip of the token service — for every user info, a
token generated at `now` and validated under the same secret at any
instant strictly inside the 24-hour window (whether or not the parser's
own expiry validation is active) succeeds and returns claims whose
email, name and picture equal the user's and whose issuer is
`"rice-notes"`. -/
theorem c10_jwt_roundtrip (secret : String) (u : UserInfo) (now t : Int)
    (libLag : Bool) (h : t < now + 24 * 3600) :
    ∃ c, validateJWT secret t libLag (generateJWT secret now u) = .ok c ∧
      c.email = u.email ∧ c.name = u.name ∧ c.picture = u.picture ∧
      c.issuer = "rice-notes" := by
  refine ⟨(generateJWT secret now u).claims, ?_, rfl, rfl, rfl, rfl⟩
  have h2 : ¬ (now + 86400 ≤ t) := by omega
  have h3 : ¬ (now + 86400 < t) := by omega
  simp [validateJWT, parseWithClaims, generateJWT, h2, h3]

/-- If the validator accepts, every validated property holds: the
positive characterization of `validateCreateNoteRequest = none`. -/
theorem validate_none_sound (u t c : String) (hd : Option FileHeader)
    (hnone : validateCreateNoteRequest u t c hd = none) :
    u ≠ "" ∧ t ≠ "" ∧ goLen t ≤ 255 ∧ c ≠ "" ∧ goLen c ≤ 50 ∧
    ∃ h, hd = some h ∧ h.size ≠ 0 ∧ h.size ≤ MaxFileSize ∧
      goToLower (filepathExt h.filename) = ".pdf" := by
  unfold validateCreateNoteRequest at hnone
  split_ifs at hnone with h1 h2 h3 h4 h5
  cases hd with
  | none => simp at hnone
  | some h =>
    simp only [] at hnone
    split_ifs at hnone with h6 h7 h8
    exact ⟨h1, h2, by omega, h4, by omega, h, rfl, h6, by omega,
      not_not.mp h8⟩

/-- **C4**: every input violating one of the validation rules (empty
owner email; empty or over-255-byte title; empty or over-50-byte course
id; missing file; zero size; size over 10 MiB; extension other than
`.pdf` case-insensitively) makes `CreateNote` return a validation error
with an empty backend trace — zero `Upload` calls and zero repository
`CreateNote` calls. -/
theorem c4_validation_no_io (f : Faults) (userEmail title courseID : String)
    (header : Option FileHeader) (noteID : String)
    (hviol : userEmail = "" ∨ title = "" ∨ goLen title > 255 ∨
      courseID = "" ∨ goLen courseID > 50 ∨ header = none ∨
      ∃ h, header = some h ∧ (h.size = 0 ∨ h.size > MaxFileSize ∨
        goToLower (filepathExt h.filename) ≠ ".pdf")) :
    ∃ e, createNote f userEmail title courseID header noteID
      = (.error e, []) := by
  cases hv : validateCreateNoteRequest userEmail title courseID header with
  | some e =>
    refine ⟨e, ?_⟩
    cases header with
    | none => simp [createNote, hv]
    | some h => simp [createNote, hv]
  | none =>
    exfalso
    obtain ⟨hu, ht, ht', hc, hc', h, hhd, hs, hs', hext⟩ :=
      validate_none_sound _ _ _ _ hv
    rcases hviol with h' | h' | h' | h' | h' | h' | ⟨h'', hhd', hbad⟩
    · exact hu h'
    · exact ht h'
    · omega
    · exact hc h'
    · omega
    · rw [hhd] at h'; cases h'
    · rw [hhd] at hhd'
      injection hhd' with he
      subst he
      rcases hbad with hb | hb | hb
      · exact hs hb
      · omega
      · exact hb hext

/-- **C4** witness: a request with no file is rejected with an empty
backend trace. -/
theorem c4_witness :
    ∃ e, createNote noFaults "a@rice.edu" "T" "MATH101" none "id1"
      = (.error e, []) :=
  c4_validation_no_io noFaults "a@rice.edu" "T" "MATH101" none "id1"
    (Or.inr (Or.inr (Or.inr (Or.inr (Or.inr (Or.inl rfl))))))

/-- **C5**: when the ownership check (`GetNoteByID`) succeeds and the
metadata-row deletion does not fail, `DeleteNote` returns success for
every outcome of the object-store delete, and its backend trace is the
ownership lookup, then the metadata deletion, then the object-store
deletion — the metadata delete strictly before the storage delete. -/
theorem c5_delete_metadata_authoritative (db : List Note) (f : Faults)
    (noteID userEmail : String) (note : Note)
    (hget : getNoteByID db noteID userEmail = .ok note)
    (hexec : f.repoDeleteExecError = none) :
    deleteNote db f noteID userEmail
      = (.ok (), [.repoGet noteID, .repoDelete noteID userEmail,
                  .storageDelete note.filePath]) := by
  have hfind : db.find? (fun n => n.id = noteID) = some note ∧
      note.userEmail = userEmail := by
    unfold getNoteByID repoGetNoteByID at hget
    cases hf : db.find? (fun n => n.id = noteID) with
    | none => rw [hf] at hget; cases hget
    | some n =>
      rw [hf] at hget
      by_cases ho : n.userEmail ≠ userEmail
      · simp [ho] at hget
      · simp [ho] at hget
        exact ⟨by rw [hget], by rw [← hget]; exact not_not.mp ho⟩
  obtain ⟨hfind, hown⟩ := hfind
  have hmem := List.mem_of_find?_eq_some hfind
  have hid : note.id = noteID := by
    have := List.find?_some hfind
    simpa using this
  have hany : db.any (fun n => n.id = noteID && n.userEmail = userEmail)
      = true := by
    rw [List.any_eq_true]
    exact ⟨note, hmem, by simp [hid, hown]⟩
  simp [deleteNote, hget, repoDeleteNote, hexec, hany]

/-- **C5** witness: deleting the only note of its owner while the
object-store delete fails with `"s3 down"` still returns success, with
the metadata deletion traced before the storage deletion. -/
theorem c5_witness :
    deleteNote
        [{ id := "n1", userEmail := "a@rice.edu", title := "T",
           courseID := "C", fileName := "f.pdf",
           filePath := "notes/a@rice.edu/n1/f.pdf", fileSize := 5,
           contentType := "application/pdf" }]
        ⟨none, none, some "s3 down", none⟩ "n1" "a@rice.edu"
      = (.ok (), [.repoGet "n1", .repoDelete "n1" "a@rice.edu",
                  .storageDelete "notes/a@rice.edu/n1/f.pdf"]) :=
  c5_delete_metadata_authoritative _ _ "n1" "a@rice.edu"
    { id := "n1", userEmail := "a@rice.edu", title := "T",
      courseID := "C", fileName := "f.pdf",
      filePath := "notes/a@rice.edu/n1/f.pdf", fileSize := 5,
      contentType := "application/pdf" }
    (by rfl) rfl

/-- **C6**: a token issued at `now` carries expiry exactly `now + 24h`,
issuer `"rice-notes"` and the claims {email, name, picture} of the user;
validation under the same secret succeeds at every instant strictly
before the expiry and fails with a token-expired error at every instant
after it — for both values of `libLag`, i.e. whether or not the parser's
own validity check is active, because the service independently compares
`now > expiresAt`. -/
theorem c6_token_lifecycle (secret : String) (u : UserInfo) (now t : Int)
    (libLag : Bool) :
    (generateJWT secret now u).claims.expiresAt = now + 24 * 3600 ∧
    (generateJWT secret now u).claims.issuer = "rice-notes" ∧
    (generateJWT secret now u).claims.email = u.email ∧
    (generateJWT secret now u).claims.name = u.name ∧
    (generateJWT secret now u).claims.picture = u.picture ∧
    (t < now + 24 * 3600 →
      validateJWT secret t libLag (generateJWT secret now u)
        = .ok (generateJWT secret now u).claims) ∧
    (t > now + 24 * 3600 →
      ∃ e, validateJWT secret t libLag (generateJWT secret now u)
          = .error e ∧ isExpiredError e = true) := by
  refine ⟨rfl, rfl, rfl, rfl, rfl, ?_, ?_⟩
  · intro hlt
    have h2 : ¬ (now + 86400 ≤ t) := by omega
    have h3 : ¬ (now + 86400 < t) := by omega
    simp [validateJWT, parseWithClaims, generateJWT, h2, h3]
  · intro hgt
    have h2 : now + 86400 ≤ t := by omega
    have h3 : now + 86400 < t := by omega
    cases libLag with
    | true =>
      exact ⟨"token expired",
        by simp [validateJWT, parseWithClaims, generateJWT, h3],
        by decide⟩
    | false =>
      exact ⟨"invalid token: token is expired",
        by simp [validateJWT, parseWithClaims, generateJWT, h2],
        by decide⟩

/-- **C6** witness: issuance at 0 with secret `"secret"`; validation at
`23h59m = 86340` succeeds (even with the parser's expiry check off) and
at `24h1s = 86460` fails with a token-expired error. -/
theorem c6_witness :
    validateJWT "secret" 86340 true
        (generateJWT "secret" 0
          { email := "a@rice.edu", name := "Alice", picture := "pic",
            verified := true })
      = .ok (generateJWT "secret" 0
          { email := "a@rice.edu", name := "Alice", picture := "pic",
            verified := true }).claims ∧
    ∃ e, validateJWT "secret" 86460 false
        (generateJWT "secret" 0
          { email := "a@rice.edu", name := "Alice", picture := "pic",
            verified := true })
      = .error e ∧ isExpiredError e = true :=
  ⟨(c6_token_lifecycle "secret"
      { email := "a@rice.edu", name := "Alice", picture := "pic",
        verified := true } 0 86340 true).2.2.2.2.2.1 (by norm_num),
   (c6_token_lifecycle "secret"
      { email := "a@rice.edu", name := "Alice", picture := "pic",
        verified := true } 0 86460 false).2.2.2.2.2.2 (by norm_num)⟩

/-- **C7**: `GetUserNotes` applies limit 50 to the repository call when
the requested limit is non-positive or above 100, and offset 0 when the
requested offset is negative; in particular the call for
`(owner, "", 1000, -5)` is identical to the call for
`(owner, "", 50, 0)`. -/
theorem c7_pagination_clamping (userEmail courseID : String)
    (limit offset : Int) :
    ((limit ≤ 0 ∨ limit > 100) →
      (getUserNotes userEmail courseID limit offset).limitOf = 50) ∧
    (offset < 0 → (getUserNotes userEmail courseID limit offset).offsetOf = 0) ∧
    getUserNotes userEmail "" 1000 (-5) = getUserNotes userEmail "" 50 0 := by
  refine ⟨?_, ?_, by simp [getUserNotes]⟩
  · intro hl
    by_cases hc : courseID ≠ "" <;>
    · simp [getUserNotes, hc, Event.limitOf]
      intro h1 h2
      rcases hl with h | h <;> omega
  · intro ho
    have hco : (if offset < 0 then (0 : Int) else offset) = 0 := by
      simp [ho]
    by_cases hc : courseID ≠ "" <;>
      simp [getUserNotes, hc, hco, Event.offsetOf]

/-- **C7** witness: the clamping at the concrete call of the claim. -/
theorem c7_witness :
    (getUserNotes "a@rice.edu" "" 1000 (-5)).limitOf = 50 ∧
    (getUserNotes "a@rice.edu" "" 1000 (-5)).offsetOf = 0 ∧
    getUserNotes "a@rice.edu" "" 1000 (-5)
      = getUserNotes "a@rice.edu" "" 50 0 :=
  ⟨(c7_pagination_clamping "a@rice.edu" "" 1000 (-5)).1
      (Or.inr (by norm_num)),
   (c7_pagination_clamping "a@rice.edu" "" 1000 (-5)).2.1 (by norm_num),
   (c7_pagination_clamping "a@rice.edu" "" 1000 (-5)).2.2⟩

/-- **C10** witness: a concrete round-trip 100 seconds after issuance. -/
theorem c10_witness :
    ∃ c, validateJWT "secret" 100 false
        (generateJWT "secret" 0
          { email := "u@rice.edu", name := "U", picture := "p",
            verified := true }) = .ok c ∧
      c.email = "u@rice.edu" ∧ c.name = "U" ∧ c.picture = "p" ∧
      c.issuer = "rice-notes" :=
  c10_jwt_roundtrip "secret"
    { email := "u@rice.edu", name := "U", picture := "p", verified := true }
    0 100 false (by norm_num)

/-- A list split at a `'/'` whose left part is slash-free is unique:
the slash is the first one, so the decomposition is determined. -/
theorem splitAtSlash {a1 a2 r1 r2 : List Char}
    (h1 : '/' ∉ a1) (h2 : '/' ∉ a2)
    (heq : a1 ++ '/' :: r1 = a2 ++ '/' :: r2) : a1 = a2 ∧ r1 = r2 := by
  induction a1 generalizing a2 with
  | nil =>
    cases a2 with
    | nil => simpa using heq
    | cons b bs =>
      simp only [List.nil_append, List.cons_append, List.cons.injEq] at heq
      exact absurd (heq.1 ▸ List.mem_cons_self b bs) h2
  | cons a as ih =>
    cases a2 with
    | nil =>
      simp only [List.cons_append, List.nil_append, List.cons.injEq] at heq
      exact absurd (heq.1 ▸ List.mem_cons_self a as) h1
    | cons b bs =>
      simp only [List.cons_append, List.cons.injEq] at heq
      have h1' : '/' ∉ as := fun hm => h1 (List.mem_cons_of_mem _ hm)
      have h2' : '/' ∉ bs := fun hm => h2 (List.mem_cons_of_mem _ hm)
      obtain ⟨he, hr⟩ := ih h1' h2' heq.2
      exact ⟨by rw [heq.1, he], hr⟩

/-- **C8** (counterexample): the claim asserts the storage-key mapping
is injective for *every* two distinct triples.  It is not: the separator
`'/'` can occur inside a component, and the distinct triples
`("a/b", "c", "d")` and `("a", "b", "c/d")` produce the same key
`"notes/a/b/c/d"`. -/
theorem c8_injectivity_counterexample :
    GenerateFileKey "a/b" "c" "d" = GenerateFileKey "a" "b" "c/d" ∧
    ¬ (("a/b" : String) = "a" ∧ ("c" : String) = "b" ∧
       ("d" : String) = "c/d") :=
  ⟨rfl, by decide⟩

/-- **C8** (amended): `GenerateFileKey` returns exactly the string
`"notes/" ++ owner ++ "/" ++ noteID ++ "/" ++ fileName`, and the mapping
is injective on triples whose components contain no `'/'` (as is the
case for the generated UUID note ids and for slash-free emails and file
names); for arbitrary strings containing `'/'` distinct triples can
collide. -/
theorem c8_key_format_and_injective (o1 i1 f1 o2 i2 f2 : String)
    (ho1 : '/' ∉ o1.data) (hi1 : '/' ∉ i1.data) (_hf1 : '/' ∉ f1.data)
    (ho2 : '/' ∉ o2.data) (hi2 : '/' ∉ i2.data) (_hf2 : '/' ∉ f2.data)
    (heq : GenerateFileKey o1 i1 f1 = GenerateFileKey o2 i2 f2) :
    GenerateFileKey o1 i1 f1
      = "notes/" ++ o1 ++ "/" ++ i1 ++ "/" ++ f1 ∧
    o1 = o2 ∧ i1 = i2 ∧ f1 = f2 := by
  refine ⟨rfl, ?_⟩
  have hd : (GenerateFileKey o1 i1 f1).data
      = (GenerateFileKey o2 i2 f2).data := by rw [heq]
  unfold GenerateFileKey at hd
  simp only [String.data_append, List.append_assoc, List.cons.injEq,
    List.cons_append, List.nil_append] at hd
  obtain ⟨ho, hrest⟩ := splitAtSlash ho1 ho2 (by simpa using hd)
  obtain ⟨hi, hf⟩ := splitAtSlash hi1 hi2 hrest
  exact ⟨String.ext ho, String.ext hi, String.ext hf⟩

/-- **C8** witness: the amended theorem applied at the slash-free triple
`("a@rice.edu", "id-1", "calc.pdf")` against itself. -/
theorem c8_witness :
    GenerateFileKey "a@rice.edu" "id-1" "calc.pdf"
      = "notes/" ++ "a@rice.edu" ++ "/" ++ "id-1" ++ "/" ++ "calc.pdf" ∧
    ("a@rice.edu" : String) = "a@rice.edu" ∧
    ("id-1" : String) = "id-1" ∧ ("calc.pdf" : String) = "calc.pdf" :=
  c8_key_format_and_injective "a@rice.edu" "id-1" "calc.pdf"
    "a@rice.edu" "id-1" "calc.pdf"
    (by decide) (by decide) (by decide) (by decide) (by decide) (by decide)
    rfl

/-- A substring placed between two others is found by `containsAux`. -/
theorem containsAux_append (pre sub suf : List Char) :
    containsAux sub (pre ++ (sub ++ suf)) = true := by
  induction pre with
  | nil =>
    simp only [List.nil_append]
    cases hs : sub ++ suf with
    | nil =>
      have : sub = [] := by
        cases sub with
        | nil => rfl
        | cons c cs => simp at hs
      simp [this, containsAux]
    | cons c cs =>
      rw [containsAux]
      have : sub.isPrefixOf (c :: cs) = true := by
        rw [← hs]
        simp [List.isPrefixOf_iff_prefix]
      simp [this]
  | cons p ps ih =>
    simp only [List.cons_append]
    rw [containsAux]
    simp [ih]

/-- The body `p ++ m ++ s` contains the substring `m`. -/
theorem goContains_of_append (p m s : String) :
    goContains (p ++ m ++ s) m = true := by
  unfold goContains
  have hd : (p ++ m ++ s).data = p.data ++ (m.data ++ s.data) := by
    simp [String.data_append, List.append_assoc]
  rw [hd]
  exact containsAux_append _ _ _

/-- **C9** (counterexample): the claim asserts the create-note response
body never contains the underlying store error text.  With an upload
failure `"connection refused"` the handler sends
`http.Error(w, err.Error(), 400)`, whose body is the wrapped service
error and does contain the underlying text. -/
theorem c9_counterexample :
    (handlerCreateNoteResponse
        (createNote ⟨some "connection refused", none, none, none⟩
          "a@rice.edu" "Calc Notes" "MATH101"
          (some ⟨"calc.pdf", 2097152⟩) "id1").1).body
      = "failed to upload file: connection refused\n" ∧
    goContains "failed to upload file: connection refused\n"
      "connection refused" = true :=
  ⟨rfl, by decide⟩

/-- **C9** (amended): for every create-note request that passes
validation, a storage-upload failure with underlying text `m` produces
the 400 response whose body is the wrapped error
`"failed to upload file: " ++ m` plus the newline `http.Error` appends —
so the body *does* contain the underlying store error text `m` — and a
metadata-write failure likewise yields body
`"failed to save note: " ++ m` containing `m`; the detail is logged
server-side *and* echoed to the client. -/
theorem c9_error_body_echoes_store_error (f : Faults)
    (userEmail title courseID : String) (h : FileHeader) (noteID m : String)
    (hval : validateCreateNoteRequest userEmail title courseID (some h)
      = none) :
    (f.uploadError = some m →
      handlerCreateNoteResponse
          (createNote f userEmail title courseID (some h) noteID).1
        = { status := 400, body := "failed to upload file: " ++ m ++ "\n" } ∧
      goContains ("failed to upload file: " ++ m ++ "\n") m = true) ∧
    (f.uploadError = none → f.createError = some m →
      handlerCreateNoteResponse
          (createNote f userEmail title courseID (some h) noteID).1
        = { status := 400, body := "failed to save note: " ++ m ++ "\n" } ∧
      goContains ("failed to save note: " ++ m ++ "\n") m = true) := by
  constructor
  · intro hup
    constructor
    · simp [createNote, hval, hup, handlerCreateNoteResponse]
    · exact goContains_of_append "failed to upload file: " m "\n"
  · intro hup hcr
    constructor
    · simp [createNote, hval, hup, hcr, handlerCreateNoteResponse]
    · exact goContains_of_append "failed to save note: " m "\n"

/-- **C9** witness: the amended theorem at a concrete valid request and
the underlying error `"connection refused"`. -/
theorem c9_witness :
    ((⟨some "connection refused", none, none, none⟩ : Faults).uploadError
        = some "connection refused" →
      handlerCreateNoteResponse
          (createNote ⟨some "connection refused", none, none, none⟩
            "a@rice.edu" "Calc Notes" "MATH101"
            (some ⟨"calc.pdf", 2097152⟩) "id1").1
        = { status := 400,
            body := "failed to upload file: " ++ "connection refused"
              ++ "\n" } ∧
      goContains ("failed to upload file: " ++ "connection refused" ++ "\n")
        "connection refused" = true) ∧
    ((⟨some "connection refused", none, none, none⟩ : Faults).uploadError
        = none →
      (⟨some "connection refused", none, none, none⟩ : Faults).createError
        = some "connection refused" →
      handlerCreateNoteResponse
          (createNote ⟨some "connection refused", none, none, none⟩
            "a@rice.edu" "Calc Notes" "MATH101"
            (some ⟨"calc.pdf", 2097152⟩) "id1").1
        = { status := 400,
            body := "failed to save note: " ++ "connection refused"
              ++ "\n" } ∧
      goContains ("failed to save note: " ++ "connection refused" ++ "\n")
        "connection refused" = true) :=
  c9_error_body_echoes_store_error
    ⟨some "connection refused", none, none, none⟩
    "a@rice.edu" "Calc Notes" "MATH101" ⟨"calc.pdf", 2097152⟩
    "id1" "connection refused" (by decide)

end RiceNotes
